import Mathlib

/-!
Verification of the frame transform pipeline of `faceover-videofeed.py`
(`FaceFeedApp.update_frame`, lines 202-285 of the source).

The embedding models:
* Python floats as exact rationals (`ℚ`);
* Python `int(x)` conversion as truncation toward zero (`pytrunc`);
* Python `//` on nonnegative integers as `Nat` division, and on possibly
  negative integers as `Int.fdiv` (floor division), matching Python semantics;
* numpy basic slicing, `cv2.flip`, `cv2.resize` and `cv2.cvtColor` as the
  frame-level operations described in their documentation;
* Python exceptions as an explicit error type: `zeroDivision` for an uncaught
  `ZeroDivisionError`, `resizeError` for the `cv2.error` that `update_frame`
  catches around `cv2.resize`.
-/

/-- One pixel: three interleaved 8-bit colour channels (B, G, R order as captured). -/
abbrev Pix := Nat × Nat × Nat

/-- A frame: a `w × h` grid of pixels.  `pix x y` is the pixel in column `x`, row `y`. -/
structure Frame where
  w : Nat
  h : Nat
  pix : Nat → Nat → Pix

/-- The zoom/pan parameters read by the pipeline (source fields `zoom_level`,
`pan_x`, `pan_y` of `FaceFeedApp`). -/
structure ZoomState where
  zoom_level : ℚ
  pan_x : ℚ
  pan_y : ℚ

/-- The mutable state of `FaceFeedApp` that `update_frame` reads and writes:
window geometry, border width, zoom/pan parameters, and the pixmap currently
shown on the label (`displayed`). -/
structure AppState where
  window_w : Nat
  window_h : Nat
  border_width : Nat
  zoom_level : ℚ
  pan_x : ℚ
  pan_y : ℚ
  displayed : Option Frame

/-- Failure modes of one `update_frame` cycle.  `zeroDivision` models an uncaught
Python `ZeroDivisionError`; `resizeError` models the `cv2.error` raised by
`cv2.resize` (the only exception the source catches).  `invalidTargetDimensions`
is the error named by the specification; the source never produces it and the
constructor exists only so that the specified behaviour can be stated. -/
inductive RenderError where
  | zeroDivision
  | resizeError
  | invalidTargetDimensions
deriving DecidableEq

/-- Python `int(x)` on a float: truncation toward zero. -/
def pytrunc (x : ℚ) : Int := if 0 ≤ x then ⌊x⌋ else ⌈x⌉

/-- Modelled from numpy basic slicing `frame[y0:y1, x0:x1]` with nonnegative
indices: each bound is clamped to the axis length and an empty range yields a
zero-sized axis. -/
def npSlice (f : Frame) (y0 y1 x0 x1 : Nat) : Frame where
  w := min x1 f.w - min x0 f.w
  h := min y1 f.h - min y0 f.h
  pix := fun x y => f.pix (min x0 f.w + x) (min y0 f.h + y)

/-- Modelled from `cv2.flip(frame, 1)`: mirror the frame about the vertical
axis (left-right), keeping its dimensions. -/
def cvFlip1 (f : Frame) : Frame where
  w := f.w
  h := f.h
  pix := fun x y => f.pix (f.w - 1 - x) y

/-- Modelled from `cv2.resize(src, (dw, dh), interpolation=cv2.INTER_LINEAR)`:
raises `cv2.error` when the source is empty or the requested size has a zero
dimension, and otherwise returns a frame of exactly the requested dimensions
(pixel values obtained by resampling the source grid). -/
def cvResize (f : Frame) (dw dh : Nat) : Except RenderError Frame :=
  if f.w = 0 ∨ f.h = 0 ∨ dw = 0 ∨ dh = 0 then .error .resizeError
  else .ok ⟨dw, dh, fun x y => f.pix (x * f.w / dw) (y * f.h / dh)⟩

/-- Modelled from `cv2.cvtColor(frame, cv2.COLOR_BGR2RGB)`: swap the first and
third channel of every pixel, keeping the dimensions. -/
def cvtBGR2RGB (f : Frame) : Frame where
  w := f.w
  h := f.h
  pix := fun x y => ((f.pix x y).2.2, (f.pix x y).2.1, (f.pix x y).1)

/-! ### Zoom/Pan stage (source lines 212-229)

```
crop_factor = 1.0 / self.zoom_level
crop_w = int(w * crop_factor)
crop_h = int(h * crop_factor)
max_offset_x = (w - crop_w) // 2
max_offset_y = (h - crop_h) // 2
start_x = max_offset_x + int(self.pan_x * max_offset_x)
start_y = max_offset_y + int(self.pan_y * max_offset_y)
start_x = max(0, min(start_x, w - crop_w))
start_y = max(0, min(start_y, h - crop_h))
frame = frame[start_y:start_y + crop_h, start_x:start_x + crop_w]
```
-/

/-- Source: `crop_w = int(w * (1.0 / zoom_level))`. -/
def crop_w (f : Frame) (zoom : ℚ) : Nat := (pytrunc ((f.w : ℚ) * (1 / zoom))).toNat

/-- Source: `crop_h = int(h * (1.0 / zoom_level))`. -/
def crop_h (f : Frame) (zoom : ℚ) : Nat := (pytrunc ((f.h : ℚ) * (1 / zoom))).toNat

/-- Source: `max_offset_x = (w - crop_w) // 2` (Python floor division). -/
def max_offset_x (f : Frame) (zoom : ℚ) : Int := Int.fdiv ((f.w : Int) - crop_w f zoom) 2

/-- Source: `max_offset_y = (h - crop_h) // 2` (Python floor division). -/
def max_offset_y (f : Frame) (zoom : ℚ) : Int := Int.fdiv ((f.h : Int) - crop_h f zoom) 2

/-- The desired crop origin before clamping:
`start_x = max_offset_x + int(pan_x * max_offset_x)`. -/
def start_x_desired (f : Frame) (s : ZoomState) : Int :=
  max_offset_x f s.zoom_level + pytrunc (s.pan_x * (max_offset_x f s.zoom_level : ℚ))

/-- The desired crop origin before clamping:
`start_y = max_offset_y + int(pan_y * max_offset_y)`. -/
def start_y_desired (f : Frame) (s : ZoomState) : Int :=
  max_offset_y f s.zoom_level + pytrunc (s.pan_y * (max_offset_y f s.zoom_level : ℚ))

/-- Source: `start_x = max(0, min(start_x, w - crop_w))`. -/
def start_x (f : Frame) (s : ZoomState) : Int :=
  max 0 (min (start_x_desired f s) ((f.w : Int) - crop_w f s.zoom_level))

/-- Source: `start_y = max(0, min(start_y, h - crop_h))`. -/
def start_y (f : Frame) (s : ZoomState) : Int :=
  max 0 (min (start_y_desired f s) ((f.h : Int) - crop_h f s.zoom_level))

/-- The Zoom/Pan stage (source lines 212-229): when `zoom_level > 1.0`, crop the
frame to the `crop_w × crop_h` window at the clamped origin; otherwise the frame
passes through unchanged. -/
def apply_zoom_pan (f : Frame) (s : ZoomState) : Frame :=
  if s.zoom_level > 1 then
    npSlice f (start_y f s).toNat ((start_y f s).toNat + crop_h f s.zoom_level)
      (start_x f s).toNat ((start_x f s).toNat + crop_w f s.zoom_level)
  else f

/-! ### Aspect-Fill stage (source lines 238-270)

```
src_h, src_w, _ = frame.shape
src_ar = src_w / src_h
target_ar = content_w / content_h
crop_start_x, crop_end_x = 0, src_w
crop_start_y, crop_end_y = 0, src_h
if target_ar > src_ar:
    new_src_h = int(src_w / target_ar)
    crop_amount_y = (src_h - new_src_h) // 2
    crop_start_y = crop_amount_y
    crop_end_y = src_h - crop_amount_y
elif target_ar < src_ar:
    new_src_w = int(src_h * target_ar)
    crop_amount_x = (src_w - new_src_w) // 2
    crop_start_x = crop_amount_x
    crop_end_x = src_w - crop_amount_x
final_cropped_frame = frame[crop_start_y:crop_end_y, crop_start_x:crop_end_x]
resized_frame = cv2.resize(final_cropped_frame, (content_w, content_h), ...)
```
-/

/-- Source: `src_ar = src_w / src_h`. -/
def src_ar (f : Frame) : ℚ := (f.w : ℚ) / (f.h : ℚ)

/-- Source: `target_ar = content_w / content_h`. -/
def target_ar (cw ch : Nat) : ℚ := (cw : ℚ) / (ch : ℚ)

/-- Source: `new_src_h = int(src_w / target_ar)`. -/
def new_src_h (f : Frame) (cw ch : Nat) : Nat := (pytrunc ((f.w : ℚ) / target_ar cw ch)).toNat

/-- Source: `crop_amount_y = (src_h - new_src_h) // 2` (nonnegative in the branch where it is used). -/
def crop_amount_y (f : Frame) (cw ch : Nat) : Nat := (f.h - new_src_h f cw ch) / 2

/-- Source: `new_src_w = int(src_h * target_ar)`. -/
def new_src_w (f : Frame) (cw ch : Nat) : Nat := (pytrunc ((f.h : ℚ) * target_ar cw ch)).toNat

/-- Source: `crop_amount_x = (src_w - new_src_w) // 2` (nonnegative in the branch where it is used). -/
def crop_amount_x (f : Frame) (cw ch : Nat) : Nat := (f.w - new_src_w f cw ch) / 2

/-- First row kept by the aspect-fill crop. -/
def crop_start_y (f : Frame) (cw ch : Nat) : Nat :=
  if target_ar cw ch > src_ar f then crop_amount_y f cw ch else 0

/-- One past the last row kept by the aspect-fill crop. -/
def crop_end_y (f : Frame) (cw ch : Nat) : Nat :=
  if target_ar cw ch > src_ar f then f.h - crop_amount_y f cw ch else f.h

/-- First column kept by the aspect-fill crop. -/
def crop_start_x (f : Frame) (cw ch : Nat) : Nat :=
  if target_ar cw ch > src_ar f then 0
  else if target_ar cw ch < src_ar f then crop_amount_x f cw ch else 0

/-- One past the last column kept by the aspect-fill crop. -/
def crop_end_x (f : Frame) (cw ch : Nat) : Nat :=
  if target_ar cw ch > src_ar f then f.w
  else if target_ar cw ch < src_ar f then f.w - crop_amount_x f cw ch else f.w

/-- The Aspect-Fill stage (source lines 238-270): compute the two aspect ratios
(raising `ZeroDivisionError` when a denominator is zero), crop to the target
aspect ratio, and resize to exactly `cw × ch`.  The `cv2.error` of the resize is
reported as `resizeError`. -/
def aspect_fill (f : Frame) (cw ch : Nat) : Except RenderError Frame :=
  if f.h = 0 ∨ ch = 0 then .error .zeroDivision
  else
    cvResize (npSlice f (crop_start_y f cw ch) (crop_end_y f cw ch)
      (crop_start_x f cw ch) (crop_end_x f cw ch)) cw ch

/-! ### Pipeline orchestration (source lines 202-285) -/

/-- The two-stage transform pipeline: Zoom/Pan then Aspect-Fill. -/
def render_frame (raw : Frame) (s : ZoomState) (cw ch : Nat) : Except RenderError Frame :=
  aspect_fill (apply_zoom_pan raw s) cw ch

/-- Source: `content_w = max(1, self.window_w - self.border_width * 2)` (source lines 232-236). -/
def content_w (st : AppState) : Nat :=
  (max 1 ((st.window_w : Int) - 2 * (st.border_width : Int))).toNat

/-- Source: `content_h = max(1, self.window_h - self.border_width * 2)` (source lines 233-236). -/
def content_h (st : AppState) : Nat :=
  (max 1 ((st.window_h : Int) - 2 * (st.border_width : Int))).toNat

/-- The zoom/pan snapshot read from the app state. -/
def zoom_state_of (st : AppState) : ZoomState := ⟨st.zoom_level, st.pan_x, st.pan_y⟩

/-- One `update_frame` cycle (source lines 202-285).  `captured` is the result of
`self.capture.read()` (`none` when `ret` is false).  A failed capture returns at
once; otherwise the captured frame is flipped horizontally, zoomed/panned,
aspect-filled to the content area, converted BGR to RGB and displayed.  A
`cv2.error` during the resize is caught and the cycle returns without updating
the display; any other exception propagates. -/
def update_frame (st : AppState) (captured : Option Frame) : Except RenderError AppState :=
  match captured with
  | none => .ok st
  | some raw =>
    match aspect_fill (apply_zoom_pan (cvFlip1 raw) (zoom_state_of st))
        (content_w st) (content_h st) with
    | .ok out => .ok { st with displayed := some (cvtBGR2RGB out) }
    | .error .resizeError => .ok st
    | .error e => .error e

/-- Modelled from the spec (section 4.1): the desired crop origin with
nearest-integer rounding of the pan term,
`start_x = max_offset_x + round(pan_x * max_offset_x)`.  The source uses
`int(...)` here instead; this definition exists to compare the two. -/
def spec_start_x_desired (f : Frame) (s : ZoomState) : Int :=
  max_offset_x f s.zoom_level + round (s.pan_x * (max_offset_x f s.zoom_level : ℚ))

/-! ### Dimension extraction helpers (used to state results decidably) -/

/-- The dimensions of a frame, as a pair. -/
def frame_dims (f : Frame) : Nat × Nat := (f.w, f.h)

/-- The dimensions of the frame produced by a pipeline run, when it produced one. -/
def result_dims (r : Except RenderError Frame) : Except RenderError (Nat × Nat) :=
  r.map frame_dims

/-- The dimensions of the displayed frame after an `update_frame` cycle. -/
def update_outcome (r : Except RenderError AppState) :
    Except RenderError (Option (Nat × Nat)) :=
  r.map (fun st => st.displayed.map frame_dims)

/-! ### Concrete test data -/

/-- A mid-grey pixel. -/
def grayPix : Pix := (90, 90, 90)

/-- A 1920×1080 frame, the resolution requested from the capture device. -/
def camFrame : Frame := ⟨1920, 1080, fun _ _ => grayPix⟩

/-- A 640×480 frame. -/
def frame640 : Frame := ⟨640, 480, fun _ _ => grayPix⟩

/-- A valid but extreme 640×10 frame. -/
def thinFrame : Frame := ⟨640, 10, fun _ _ => grayPix⟩

/-- A valid 1×1 frame. -/
def unitFrame : Frame := ⟨1, 1, fun _ _ => grayPix⟩

/-- An 18×18 frame. -/
def frame18 : Frame := ⟨18, 18, fun _ _ => grayPix⟩

/-- Zoom disabled: `zoom_level = 1.0`, centred pan. -/
def zoomNone : ZoomState := ⟨1, 0, 0⟩

/-- Zoom 2.0 with pan `(0.4, 0)`. -/
def panState : ZoomState := ⟨2, 2/5, 0⟩

/-- App state with window 10×60 and border width 5: the derived content area is
degenerate in width (`10 - 2*5 = 0`). -/
def stDeg : AppState := ⟨10, 60, 5, 1, 0, 0, none⟩

/-- App state with default 250×250 window, border width 5, zoom 2.0. -/
def stZoomed : AppState := ⟨250, 250, 5, 2, 0, 0, none⟩

/-! ### Evaluation helpers -/

theorem floor_eval (q : ℚ) (n : ℤ) (h1 : (n : ℚ) ≤ q) (h2 : q < n + 1) : ⌊q⌋ = n :=
  Int.floor_eq_iff.mpr ⟨h1, h2⟩

theorem pytrunc_nonneg_eval (q : ℚ) (n : ℤ) (h0 : 0 ≤ q) (h1 : (n : ℚ) ≤ q)
    (h2 : q < n + 1) : pytrunc q = n := by
  rw [pytrunc, if_pos h0]
  exact floor_eval q n h1 h2

/-! ### Generic lemmas about the pipeline -/

theorem cvResize_ok_dims (f : Frame) (dw dh : Nat) (out : Frame)
    (h : cvResize f dw dh = .ok out) : out.w = dw ∧ out.h = dh := by
  rw [cvResize] at h
  split at h
  · exact absurd h (by simp)
  · injection h with h2
    subst h2
    exact ⟨rfl, rfl⟩

theorem aspect_fill_ok_dims (f : Frame) (cw ch : Nat) (out : Frame)
    (h : aspect_fill f cw ch = .ok out) : out.w = cw ∧ out.h = ch := by
  rw [aspect_fill] at h
  split at h
  · exact absurd h (by simp)
  · exact cvResize_ok_dims _ _ _ _ h

/-- C7: for `zoom_level ≤ 1.0` the Zoom/Pan stage is the identity. -/
theorem apply_zoom_pan_identity (f : Frame) (s : ZoomState) (hz : s.zoom_level ≤ 1) :
    apply_zoom_pan f s = f := by
  rw [apply_zoom_pan, if_neg (not_lt.mpr hz)]

theorem apply_zoom_pan_identity_witness :
    ZoomState.zoom_level ⟨1, 0, 0⟩ ≤ 1 ∧ apply_zoom_pan camFrame ⟨1, 0, 0⟩ = camFrame :=
  ⟨le_refl 1, apply_zoom_pan_identity camFrame ⟨1, 0, 0⟩ (le_refl 1)⟩

/-- C9: when no raw frame is captured, `update_frame` returns at once: it produces
no output frame and leaves every parameter and the displayed buffer unchanged. -/
theorem update_frame_skips_failed_capture (st : AppState) :
    update_frame st none = .ok st := rfl

/-- C10: `update_frame` mirrors every captured frame horizontally before the
Zoom/Pan stage runs: the cycle is exactly the spec pipeline `render_frame`
applied to `cvFlip1 raw`, and `cvFlip1` is the left-right mirror
(`pix x y = raw.pix (raw.w - 1 - x) y` at unchanged dimensions). -/
theorem update_frame_mirrors_capture (st : AppState) (raw : Frame) :
    (update_frame st (some raw) =
      match render_frame (cvFlip1 raw) (zoom_state_of st) (content_w st) (content_h st) with
      | .ok out => .ok { st with displayed := some (cvtBGR2RGB out) }
      | .error .resizeError => .ok st
      | .error e => .error e)
    ∧ (cvFlip1 raw).w = raw.w ∧ (cvFlip1 raw).h = raw.h
    ∧ ∀ x y, (cvFlip1 raw).pix x y = raw.pix (raw.w - 1 - x) y :=
  ⟨rfl, rfl, rfl, fun _ _ => rfl⟩

/-! ### C2: crop containment -/

theorem pytrunc_mul_inv_le (n : Nat) (zoom : ℚ) (hz : 1 < zoom) :
    (pytrunc ((n : ℚ) * (1 / zoom))).toNat ≤ n := by
  have hzpos : (0 : ℚ) < zoom := lt_trans zero_lt_one hz
  have harg0 : 0 ≤ (n : ℚ) * (1 / zoom) := by positivity
  have harg : (n : ℚ) * (1 / zoom) ≤ (n : ℚ) := by
    have h1 : 1 / zoom ≤ 1 := by
      rw [div_le_one hzpos]
      exact le_of_lt hz
    calc (n : ℚ) * (1 / zoom) ≤ (n : ℚ) * 1 := mul_le_mul_of_nonneg_left h1 (Nat.cast_nonneg _)
      _ = (n : ℚ) := mul_one _
  rw [pytrunc, if_pos harg0]
  have hfl : ⌊(n : ℚ) * (1 / zoom)⌋ ≤ (n : Int) := by
    calc ⌊(n : ℚ) * (1 / zoom)⌋ ≤ ⌊(n : ℚ)⌋ := Int.floor_le_floor harg
      _ = (n : Int) := Int.floor_natCast _
  omega

theorem crop_w_le (f : Frame) (zoom : ℚ) (hz : 1 < zoom) : crop_w f zoom ≤ f.w :=
  pytrunc_mul_inv_le f.w zoom hz

theorem crop_h_le (f : Frame) (zoom : ℚ) (hz : 1 < zoom) : crop_h f zoom ≤ f.h :=
  pytrunc_mul_inv_le f.h zoom hz

/-- C2: for every `zoom_level > 1.0` and `pan_x, pan_y ∈ [-1, 1]`, the crop
rectangle `[start_x, start_x + crop_w) × [start_y, start_y + crop_h)` computed by
the Zoom/Pan stage lies entirely inside `[0, f.w) × [0, f.h)`: the stage never
reads outside the source frame. -/
theorem zoom_pan_crop_containment (f : Frame) (s : ZoomState) (hz : 1 < s.zoom_level)
    (hpx1 : -1 ≤ s.pan_x) (hpx2 : s.pan_x ≤ 1) (hpy1 : -1 ≤ s.pan_y) (hpy2 : s.pan_y ≤ 1) :
    0 ≤ start_x f s ∧ (start_x f s).toNat + crop_w f s.zoom_level ≤ f.w ∧
    0 ≤ start_y f s ∧ (start_y f s).toNat + crop_h f s.zoom_level ≤ f.h := by
  have hcw := crop_w_le f s.zoom_level hz
  have hch := crop_h_le f s.zoom_level hz
  have hx0 : 0 ≤ start_x f s := le_max_left _ _
  have hy0 : 0 ≤ start_y f s := le_max_left _ _
  have hx1 : start_x f s ≤ (f.w : Int) - crop_w f s.zoom_level := by
    rw [start_x]
    exact max_le (by omega) (min_le_right _ _)
  have hy1 : start_y f s ≤ (f.h : Int) - crop_h f s.zoom_level := by
    rw [start_y]
    exact max_le (by omega) (min_le_right _ _)
  refine ⟨hx0, ?_, hy0, ?_⟩ <;> omega

/-- Zoom 2.0 with both pans at their extreme `+1.0`. -/
def panMax : ZoomState := ⟨2, 1, 1⟩

theorem crop_w_cam : crop_w camFrame 2 = 960 := by
  have h : pytrunc ((camFrame.w : ℚ) * (1 / 2)) = 960 :=
    pytrunc_nonneg_eval _ 960 (by norm_num [camFrame]) (by norm_num [camFrame])
      (by norm_num [camFrame])
  rw [crop_w, h]
  rfl

theorem max_offset_x_cam : max_offset_x camFrame 2 = 480 := by
  rw [max_offset_x, crop_w_cam]
  decide

theorem start_x_desired_cam : start_x_desired camFrame panMax = 960 := by
  show max_offset_x camFrame 2 + pytrunc ((1 : ℚ) * ((max_offset_x camFrame 2 : Int) : ℚ)) = 960
  rw [max_offset_x_cam]
  have h : pytrunc ((1 : ℚ) * ((480 : Int) : ℚ)) = 480 :=
    pytrunc_nonneg_eval _ 480 (by norm_num) (by norm_num) (by norm_num)
  rw [h]
  decide

theorem start_x_cam : start_x camFrame panMax = 960 := by
  show max 0 (min (start_x_desired camFrame panMax) ((camFrame.w : Int) - crop_w camFrame 2)) = 960
  rw [start_x_desired_cam, crop_w_cam]
  decide

theorem zoom_pan_crop_containment_witness :
    (1 < panMax.zoom_level ∧ -1 ≤ panMax.pan_x ∧ panMax.pan_x ≤ 1 ∧
      -1 ≤ panMax.pan_y ∧ panMax.pan_y ≤ 1) ∧
    crop_w camFrame panMax.zoom_level = 960 ∧ start_x camFrame panMax = 960 ∧
    (0 ≤ start_x camFrame panMax ∧
      (start_x camFrame panMax).toNat + crop_w camFrame panMax.zoom_level ≤ camFrame.w ∧
      0 ≤ start_y camFrame panMax ∧
      (start_y camFrame panMax).toNat + crop_h camFrame panMax.zoom_level ≤ camFrame.h) := by
  refine ⟨⟨by norm_num [panMax], by norm_num [panMax], by norm_num [panMax],
    by norm_num [panMax], by norm_num [panMax]⟩, crop_w_cam, start_x_cam, ?_⟩
  exact zoom_pan_crop_containment camFrame panMax (by norm_num [panMax])
    (by norm_num [panMax]) (by norm_num [panMax]) (by norm_num [panMax]) (by norm_num [panMax])

/-! ### C3: desired crop origin, truncation versus rounding -/

theorem crop_w_frame18 : crop_w frame18 2 = 9 := by
  have h : pytrunc ((frame18.w : ℚ) * (1 / 2)) = 9 :=
    pytrunc_nonneg_eval _ 9 (by norm_num [frame18]) (by norm_num [frame18])
      (by norm_num [frame18])
  rw [crop_w, h]
  rfl

theorem max_offset_x_frame18 : max_offset_x frame18 2 = 4 := by
  rw [max_offset_x, crop_w_frame18]
  decide

/-- C3 counterexample: at an 18×18 frame with `zoom_level = 2.0` and `pan_x = 0.4`
the pan term is `0.4 * 4 = 1.6`; the code truncates it to `1` (desired origin 5)
while the nearest-integer rounding stated by the claim gives `2` (origin 6). -/
theorem start_x_trunc_ne_round :
    start_x_desired frame18 panState = 5 ∧ spec_start_x_desired frame18 panState = 6 ∧
    start_x_desired frame18 panState ≠ spec_start_x_desired frame18 panState := by
  have h1 : start_x_desired frame18 panState = 5 := by
    show max_offset_x frame18 2 + pytrunc ((2 / 5 : ℚ) * ((max_offset_x frame18 2 : Int) : ℚ)) = 5
    rw [max_offset_x_frame18]
    have h : pytrunc ((2 / 5 : ℚ) * ((4 : Int) : ℚ)) = 1 :=
      pytrunc_nonneg_eval _ 1 (by norm_num) (by norm_num) (by norm_num)
    rw [h]
    decide
  have h2 : spec_start_x_desired frame18 panState = 6 := by
    show max_offset_x frame18 2 + round ((2 / 5 : ℚ) * ((max_offset_x frame18 2 : Int) : ℚ)) = 6
    rw [max_offset_x_frame18]
    have h : round ((2 / 5 : ℚ) * ((4 : Int) : ℚ)) = 2 := by
      rw [round_eq]
      exact floor_eval _ 2 (by norm_num) (by norm_num)
    rw [h]
    decide
  refine ⟨h1, h2, ?_⟩
  rw [h1, h2]
  decide

/-- C3 amended: for `zoom_level > 1.0` the Zoom/Pan stage computes the desired crop
origin as `start_x = max_offset_x + int(pan_x * max_offset_x)` where `int` is Python
truncation toward zero (floor of a nonnegative pan term, ceiling of a negative one),
not nearest-integer rounding, and then clamps it to the legal range. -/
theorem start_desired_truncates (f : Frame) (s : ZoomState) (hz : 1 < s.zoom_level) :
    start_x_desired f s = max_offset_x f s.zoom_level +
      (if 0 ≤ s.pan_x * (max_offset_x f s.zoom_level : ℚ)
        then ⌊s.pan_x * (max_offset_x f s.zoom_level : ℚ)⌋
        else ⌈s.pan_x * (max_offset_x f s.zoom_level : ℚ)⌉) ∧
    start_y_desired f s = max_offset_y f s.zoom_level +
      (if 0 ≤ s.pan_y * (max_offset_y f s.zoom_level : ℚ)
        then ⌊s.pan_y * (max_offset_y f s.zoom_level : ℚ)⌋
        else ⌈s.pan_y * (max_offset_y f s.zoom_level : ℚ)⌉) ∧
    start_x f s = max 0 (min (start_x_desired f s) ((f.w : Int) - crop_w f s.zoom_level)) ∧
    start_y f s = max 0 (min (start_y_desired f s) ((f.h : Int) - crop_h f s.zoom_level)) :=
  ⟨rfl, rfl, rfl, rfl⟩

theorem start_desired_truncates_witness :
    1 < panState.zoom_level ∧
    (start_x_desired frame18 panState = max_offset_x frame18 panState.zoom_level +
      (if 0 ≤ panState.pan_x * (max_offset_x frame18 panState.zoom_level : ℚ)
        then ⌊panState.pan_x * (max_offset_x frame18 panState.zoom_level : ℚ)⌋
        else ⌈panState.pan_x * (max_offset_x frame18 panState.zoom_level : ℚ)⌉) ∧
    start_y_desired frame18 panState = max_offset_y frame18 panState.zoom_level +
      (if 0 ≤ panState.pan_y * (max_offset_y frame18 panState.zoom_level : ℚ)
        then ⌊panState.pan_y * (max_offset_y frame18 panState.zoom_level : ℚ)⌋
        else ⌈panState.pan_y * (max_offset_y frame18 panState.zoom_level : ℚ)⌉) ∧
    start_x frame18 panState =
      max 0 (min (start_x_desired frame18 panState) ((frame18.w : Int) - crop_w frame18 panState.zoom_level)) ∧
    start_y frame18 panState =
      max 0 (min (start_y_desired frame18 panState) ((frame18.h : Int) - crop_h frame18 panState.zoom_level))) :=
  ⟨by norm_num [panState], start_desired_truncates frame18 panState (by norm_num [panState])⟩

/-! ### C4: degenerate crop dimensions are not clamped -/

/-- The zoom/pan snapshot of `stZoomed`: zoom 2.0, centred pan. -/
def zs2 : ZoomState := ⟨2, 0, 0⟩

theorem update_frame_some (st : AppState) (raw : Frame) :
    update_frame st (some raw) =
      match aspect_fill (apply_zoom_pan (cvFlip1 raw) (zoom_state_of st))
          (content_w st) (content_h st) with
      | .ok out => .ok { st with displayed := some (cvtBGR2RGB out) }
      | .error .resizeError => .ok st
      | .error e => .error e := rfl

theorem crop_w_one (f : Frame) (hw : f.w = 1) : crop_w f zs2.zoom_level = 0 := by
  have h : pytrunc ((f.w : ℚ) * (1 / zs2.zoom_level)) = 0 :=
    pytrunc_nonneg_eval _ 0 (by rw [hw]; norm_num [zs2]) (by rw [hw]; norm_num [zs2])
      (by rw [hw]; norm_num [zs2])
  rw [crop_w, h]
  rfl

theorem crop_h_one (f : Frame) (hh : f.h = 1) : crop_h f zs2.zoom_level = 0 := by
  have h : pytrunc ((f.h : ℚ) * (1 / zs2.zoom_level)) = 0 :=
    pytrunc_nonneg_eval _ 0 (by rw [hh]; norm_num [zs2]) (by rw [hh]; norm_num [zs2])
      (by rw [hh]; norm_num [zs2])
  rw [crop_h, h]
  rfl

theorem start_x_one (f : Frame) (hw : f.w = 1) : start_x f zs2 = 0 := by
  have hmox : max_offset_x f zs2.zoom_level = 0 := by
    rw [max_offset_x, crop_w_one f hw, hw]
    decide
  have hd : start_x_desired f zs2 = 0 := by
    rw [start_x_desired, hmox]
    have h : pytrunc (zs2.pan_x * ((0 : Int) : ℚ)) = 0 :=
      pytrunc_nonneg_eval _ 0 (by norm_num [zs2]) (by norm_num [zs2]) (by norm_num [zs2])
    rw [h]
    decide
  rw [start_x, hd, crop_w_one f hw, hw]
  decide

theorem start_y_one (f : Frame) (hh : f.h = 1) : start_y f zs2 = 0 := by
  have hmoy : max_offset_y f zs2.zoom_level = 0 := by
    rw [max_offset_y, crop_h_one f hh, hh]
    decide
  have hd : start_y_desired f zs2 = 0 := by
    rw [start_y_desired, hmoy]
    have h : pytrunc (zs2.pan_y * ((0 : Int) : ℚ)) = 0 :=
      pytrunc_nonneg_eval _ 0 (by norm_num [zs2]) (by norm_num [zs2]) (by norm_num [zs2])
    rw [h]
    decide
  rw [start_y, hd, crop_h_one f hh, hh]
  decide

theorem zoom_unit_empty (f : Frame) (hw : f.w = 1) (hh : f.h = 1) :
    (apply_zoom_pan f zs2).w = 0 ∧ (apply_zoom_pan f zs2).h = 0 := by
  have happ : apply_zoom_pan f zs2 =
      npSlice f (start_y f zs2).toNat ((start_y f zs2).toNat + crop_h f zs2.zoom_level)
        (start_x f zs2).toNat ((start_x f zs2).toNat + crop_w f zs2.zoom_level) := by
    rw [apply_zoom_pan, if_pos (by norm_num [zs2] : zs2.zoom_level > 1)]
  rw [happ, start_x_one f hw, start_y_one f hh, crop_w_one f hw, crop_h_one f hh]
  simp [npSlice]

/-- C4: at a valid 1×1 frame with `zoom_level = 2.0` the Zoom/Pan stage computes
`crop_w = crop_h = int(1 * 0.5) = 0` and returns an empty 0×0 frame (no clamping
to a minimum of 1 pixel happens), after which the cycle crashes: the aspect-fill
aspect-ratio computation divides by the zero height. -/
theorem zoom_degenerate_not_clamped :
    crop_w unitFrame 2 = 0 ∧ crop_h unitFrame 2 = 0 ∧
    (apply_zoom_pan unitFrame zs2).w = 0 ∧ (apply_zoom_pan unitFrame zs2).h = 0 ∧
    update_frame stZoomed (some unitFrame) = .error .zeroDivision := by
  have hdims := zoom_unit_empty (cvFlip1 unitFrame) rfl rfl
  have hcrash : update_frame stZoomed (some unitFrame) = .error .zeroDivision := by
    rw [update_frame_some]
    rw [show zoom_state_of stZoomed = zs2 from rfl]
    rw [aspect_fill, if_pos (Or.inl hdims.2)]
  exact ⟨crop_w_one unitFrame rfl, crop_h_one unitFrame rfl,
    (zoom_unit_empty unitFrame rfl rfl).1, (zoom_unit_empty unitFrame rfl rfl).2, hcrash⟩

/-! ### C5: behaviour on a target with a dimension below 1 -/

/-- C5 counterexample: invoked directly with a 0×50 target and a valid 640×480
frame, the Aspect-Fill stage does not fail with `invalidTargetDimensions`; the
resize step raises the (caught) `cv2.error` instead. -/
theorem aspect_fill_no_invalid_target_error :
    aspect_fill frame640 0 50 = .error .resizeError ∧
    RenderError.resizeError ≠ RenderError.invalidTargetDimensions := by
  constructor
  · rw [aspect_fill, if_neg (by norm_num [frame640]), cvResize,
      if_pos (Or.inr (Or.inr (Or.inl rfl)))]
  · decide

/-- C5 amended: the Aspect-Fill stage performs no target validation and the code
has no `InvalidTargetDimensions` error; invoked with `target.width < 1` or
`target.height < 1` it produces no output frame — the aspect-ratio computation
divides by zero when the height is below 1, and the resize step fails when the
width is below 1.  (In the app the orchestrator clamps both target dimensions to
at least 1, so the stage never receives such a target.) -/
theorem aspect_fill_invalid_target_no_output (f : Frame) (cw ch : Nat)
    (hw : 1 ≤ f.w) (hh : 1 ≤ f.h) (hdeg : cw = 0 ∨ ch = 0) :
    aspect_fill f cw ch = .error .zeroDivision ∨
    aspect_fill f cw ch = .error .resizeError := by
  rcases Nat.eq_zero_or_pos ch with hch | hch
  · left
    rw [aspect_fill, if_pos (Or.inr hch)]
  · right
    have hcw : cw = 0 := by omega
    rw [aspect_fill, if_neg (by omega), cvResize, if_pos (Or.inr (Or.inr (Or.inl hcw)))]

theorem aspect_fill_invalid_target_no_output_witness :
    (1 ≤ frame640.w ∧ 1 ≤ frame640.h ∧ ((0 : Nat) = 0 ∨ (50 : Nat) = 0)) ∧
    (aspect_fill frame640 0 50 = .error .zeroDivision ∨
      aspect_fill frame640 0 50 = .error .resizeError) :=
  ⟨⟨by norm_num [frame640], by norm_num [frame640], Or.inl rfl⟩,
    aspect_fill_invalid_target_no_output frame640 0 50 (by norm_num [frame640])
      (by norm_num [frame640]) (Or.inl rfl)⟩

/-! ### C8: aspect-fill crop bounds for a relatively wider target -/

/-- C8: when `target_ar > src_ar` the Aspect-Fill stage crops only vertically:
`new_src_h = floor(frame.w / target_ar)`, `crop_amount_y = floor((frame.h - new_src_h) / 2)`,
the rows kept are `[crop_amount_y, frame.h - crop_amount_y)` and the horizontal
range is the full width. -/
theorem aspect_fill_wide_target (f : Frame) (cw ch : Nat)
    (hh : 1 ≤ f.h) (hch : 1 ≤ ch) (har : target_ar cw ch > src_ar f) :
    new_src_h f cw ch = (⌊(f.w : ℚ) / target_ar cw ch⌋).toNat ∧
    crop_amount_y f cw ch = (f.h - new_src_h f cw ch) / 2 ∧
    crop_start_y f cw ch = crop_amount_y f cw ch ∧
    crop_end_y f cw ch = f.h - crop_amount_y f cw ch ∧
    crop_start_x f cw ch = 0 ∧ crop_end_x f cw ch = f.w := by
  have hsrc : (0 : ℚ) ≤ src_ar f := by
    rw [src_ar]
    positivity
  have htar_pos : 0 < target_ar cw ch := lt_of_le_of_lt hsrc har
  have harg : 0 ≤ (f.w : ℚ) / target_ar cw ch :=
    div_nonneg (Nat.cast_nonneg _) (le_of_lt htar_pos)
  refine ⟨?_, rfl, ?_, ?_, ?_, ?_⟩
  · rw [new_src_h, pytrunc, if_pos harg]
  · rw [crop_start_y, if_pos har]
  · rw [crop_end_y, if_pos har]
  · rw [crop_start_x, if_pos har]
  · rw [crop_end_x, if_pos har]

theorem target_ar_300_100 : target_ar 300 100 = 3 := by
  rw [target_ar]
  norm_num

theorem src_ar_frame640 : src_ar frame640 = 4 / 3 := by
  rw [src_ar]
  norm_num [frame640]

theorem wide_640 : target_ar 300 100 > src_ar frame640 := by
  rw [target_ar_300_100, src_ar_frame640]
  norm_num

theorem new_src_h_640 : new_src_h frame640 300 100 = 213 := by
  have h : pytrunc ((frame640.w : ℚ) / target_ar 300 100) = 213 := by
    rw [target_ar_300_100]
    exact pytrunc_nonneg_eval _ 213 (by norm_num [frame640]) (by norm_num [frame640])
      (by norm_num [frame640])
  rw [new_src_h, h]
  rfl

theorem crop_amount_y_640 : crop_amount_y frame640 300 100 = 133 := by
  rw [crop_amount_y, new_src_h_640]
  decide

theorem crop_start_y_640 : crop_start_y frame640 300 100 = 133 := by
  rw [crop_start_y, if_pos wide_640, crop_amount_y_640]

theorem crop_end_y_640 : crop_end_y frame640 300 100 = 347 := by
  rw [crop_end_y, if_pos wide_640, crop_amount_y_640]
  decide

theorem crop_start_x_640 : crop_start_x frame640 300 100 = 0 := by
  rw [crop_start_x, if_pos wide_640]

theorem crop_end_x_640 : crop_end_x frame640 300 100 = 640 := by
  rw [crop_end_x, if_pos wide_640]
  decide

theorem aspect_fill_640_eval : result_dims (aspect_fill frame640 300 100) = .ok (300, 100) := by
  rw [aspect_fill, if_neg (by norm_num [frame640]), crop_start_y_640, crop_end_y_640,
    crop_start_x_640, crop_end_x_640, cvResize, if_neg (by decide)]
  rfl

theorem aspect_fill_wide_target_witness :
    (1 ≤ frame640.h ∧ 1 ≤ 100 ∧ target_ar 300 100 > src_ar frame640) ∧
    new_src_h frame640 300 100 = 213 ∧ crop_amount_y frame640 300 100 = 133 ∧
    crop_start_y frame640 300 100 = crop_amount_y frame640 300 100 ∧
    crop_end_y frame640 300 100 = frame640.h - crop_amount_y frame640 300 100 ∧
    crop_start_x frame640 300 100 = 0 ∧ crop_end_x frame640 300 100 = frame640.w ∧
    (npSlice frame640 133 347 0 640).w = 640 ∧ (npSlice frame640 133 347 0 640).h = 214 ∧
    result_dims (aspect_fill frame640 300 100) = .ok (300, 100) := by
  have main := aspect_fill_wide_target frame640 300 100 (by norm_num [frame640])
    (by norm_num) wide_640
  exact ⟨⟨by norm_num [frame640], by norm_num, wide_640⟩, new_src_h_640, crop_amount_y_640,
    main.2.2.1, main.2.2.2.1, main.2.2.2.2.1, main.2.2.2.2.2,
    by decide, by decide, aspect_fill_640_eval⟩

/-! ### C1: output dimensions of the full pipeline -/

/-- C1 counterexample: with a valid 640×10 frame, zoom disabled and the valid 1×50
target, the aspect-fill crop collapses to width 0 (`new_src_w = int(10/50) = 0`,
horizontal range `[320, 320)`), the resize raises, and `render_frame` produces no
output frame at all. -/
theorem render_frame_thin_no_output :
    render_frame thinFrame zoomNone 1 50 = .error .resizeError := by
  rw [render_frame, apply_zoom_pan, if_neg (by norm_num [zoomNone])]
  have h1 : target_ar 1 50 = 1 / 50 := by
    rw [target_ar]
    norm_num
  have h2 : src_ar thinFrame = 64 := by
    rw [src_ar]
    norm_num [thinFrame]
  have hngt : ¬ target_ar 1 50 > src_ar thinFrame := by
    rw [h1, h2]
    norm_num
  have hlt : target_ar 1 50 < src_ar thinFrame := by
    rw [h1, h2]
    norm_num
  have hnsw : new_src_w thinFrame 1 50 = 0 := by
    have h : pytrunc ((thinFrame.h : ℚ) * target_ar 1 50) = 0 := by
      rw [h1]
      exact pytrunc_nonneg_eval _ 0 (by norm_num [thinFrame]) (by norm_num [thinFrame])
        (by norm_num [thinFrame])
    rw [new_src_w, h]
    rfl
  have hcax : crop_amount_x thinFrame 1 50 = 320 := by
    rw [crop_amount_x, hnsw]
    decide
  have hcsx : crop_start_x thinFrame 1 50 = 320 := by
    rw [crop_start_x, if_neg hngt, if_pos hlt, hcax]
  have hcex : crop_end_x thinFrame 1 50 = 320 := by
    rw [crop_end_x, if_neg hngt, if_pos hlt, hcax]
    decide
  have hcsy : crop_start_y thinFrame 1 50 = 0 := by
    rw [crop_start_y, if_neg hngt]
  have hcey : crop_end_y thinFrame 1 50 = 10 := by
    rw [crop_end_y, if_neg hngt]
    rfl
  rw [aspect_fill, if_neg (by norm_num [thinFrame]), hcsy, hcey, hcsx, hcex, cvResize,
    if_pos (Or.inl (by decide))]

/-- C1 amended: whenever `render_frame` produces an output frame, its dimensions
are exactly `target.width × target.height`; for some valid frames and targets the
aspect-fill crop collapses to zero area and `render_frame` produces no output at
all (the resize fails and the cycle is skipped). -/
theorem render_frame_ok_dims (raw : Frame) (s : ZoomState) (cw ch : Nat) (out : Frame)
    (h : render_frame raw s cw ch = .ok out) : out.w = cw ∧ out.h = ch := by
  rw [render_frame] at h
  exact aspect_fill_ok_dims _ _ _ _ h

theorem render_frame_ok_dims_witness :
    result_dims (render_frame frame640 zoomNone 300 100) = .ok (300, 100) := by
  have hrf : render_frame frame640 zoomNone 300 100 = aspect_fill frame640 300 100 := by
    rw [render_frame, apply_zoom_pan, if_neg (by norm_num [zoomNone])]
  rcases hok : render_frame frame640 zoomNone 300 100 with e | out
  · exfalso
    have hav := aspect_fill_640_eval
    rw [← hrf, hok] at hav
    simp [result_dims, Except.map] at hav
  · have hd := render_frame_ok_dims frame640 zoomNone 300 100 out hok
    simp [result_dims, Except.map, frame_dims, hd.1, hd.2]

/-! ### C6: content-area derivation and the degenerate 1×50 target -/

theorem target_ar_1_50 : target_ar 1 50 = 1 / 50 := by
  rw [target_ar]
  norm_num

theorem src_ar_flip_cam : src_ar (cvFlip1 camFrame) = 16 / 9 := by
  rw [src_ar]
  norm_num [cvFlip1, camFrame]

theorem aspect_fill_flip_cam_eval :
    result_dims (aspect_fill (cvFlip1 camFrame) 1 50) = .ok (1, 50) := by
  have hngt : ¬ target_ar 1 50 > src_ar (cvFlip1 camFrame) := by
    rw [target_ar_1_50, src_ar_flip_cam]
    norm_num
  have hlt : target_ar 1 50 < src_ar (cvFlip1 camFrame) := by
    rw [target_ar_1_50, src_ar_flip_cam]
    norm_num
  have hnsw : new_src_w (cvFlip1 camFrame) 1 50 = 21 := by
    have h : pytrunc (((cvFlip1 camFrame).h : ℚ) * target_ar 1 50) = 21 := by
      rw [target_ar_1_50]
      exact pytrunc_nonneg_eval _ 21 (by norm_num [cvFlip1, camFrame])
        (by norm_num [cvFlip1, camFrame]) (by norm_num [cvFlip1, camFrame])
    rw [new_src_w, h]
    rfl
  have hcax : crop_amount_x (cvFlip1 camFrame) 1 50 = 949 := by
    rw [crop_amount_x, hnsw]
    decide
  have hcsx : crop_start_x (cvFlip1 camFrame) 1 50 = 949 := by
    rw [crop_start_x, if_neg hngt, if_pos hlt, hcax]
  have hcex : crop_end_x (cvFlip1 camFrame) 1 50 = 971 := by
    rw [crop_end_x, if_neg hngt, if_pos hlt, hcax]
    decide
  have hcsy : crop_start_y (cvFlip1 camFrame) 1 50 = 0 := by
    rw [crop_start_y, if_neg hngt]
  have hcey : crop_end_y (cvFlip1 camFrame) 1 50 = 1080 := by
    rw [crop_end_y, if_neg hngt]
    rfl
  rw [aspect_fill, if_neg (by norm_num [cvFlip1, camFrame]), hcsy, hcey, hcsx, hcex,
    cvResize, if_neg (by decide)]
  rfl

/-- C6: the orchestrator derives the content area as (window size − 2×border width),
clamped below at 1, in each dimension, before invoking the Aspect-Fill stage; for
the 10×60 window with border width 5 the raw width is 0, the clamped target is
1×50, and the cycle still displays a 1×50 frame without raising. -/
theorem content_area_clamped_degenerate :
    (∀ st : AppState,
      (content_w st : Int) = max 1 ((st.window_w : Int) - 2 * (st.border_width : Int)) ∧
      (content_h st : Int) = max 1 ((st.window_h : Int) - 2 * (st.border_width : Int))) ∧
    (stDeg.window_w : Int) - 2 * (stDeg.border_width : Int) = 0 ∧
    content_w stDeg = 1 ∧ content_h stDeg = 50 ∧
    update_outcome (update_frame stDeg (some camFrame)) = .ok (some (1, 50)) := by
  have hgen : ∀ st : AppState,
      (content_w st : Int) = max 1 ((st.window_w : Int) - 2 * (st.border_width : Int)) ∧
      (content_h st : Int) = max 1 ((st.window_h : Int) - 2 * (st.border_width : Int)) := by
    intro st
    constructor
    · rw [content_w]
      exact Int.toNat_of_nonneg (le_trans zero_le_one (le_max_left _ _))
    · rw [content_h]
      exact Int.toNat_of_nonneg (le_trans zero_le_one (le_max_left _ _))
  have hcw : content_w stDeg = 1 := by decide
  have hch : content_h stDeg = 50 := by decide
  have hzp : apply_zoom_pan (cvFlip1 camFrame) (zoom_state_of stDeg) = cvFlip1 camFrame := by
    rw [apply_zoom_pan, if_neg (by norm_num [zoom_state_of, stDeg])]
  have hout : update_outcome (update_frame stDeg (some camFrame)) = .ok (some (1, 50)) := by
    rw [update_frame_some, hcw, hch, hzp]
    rcases hok : aspect_fill (cvFlip1 camFrame) 1 50 with e | out
    · exfalso
      have hav := aspect_fill_flip_cam_eval
      rw [hok] at hav
      simp [result_dims, Except.map] at hav
    · have hd := aspect_fill_ok_dims _ _ _ _ hok
      simp [update_outcome, Except.map, frame_dims, cvtBGR2RGB, hd.1, hd.2]
  exact ⟨hgen, by decide, hcw, hch, hout⟩
